import Mathlib

/-
Verification of the LiveKit video-layer selection core.

This file gives a shallow embedding of two source units:

1. the generic wrap-around counter extender (Go type WrapAround with raw
   width W bits and extended width EW bits); machine integers are
   modelled as Nat with explicit reduction modulo 2 ^ W respectively
   2 ^ EW at every point where the Go code performs unsigned arithmetic
   on T respectively ET values;

2. the dependency-descriptor driven layer selector (Go type
   DependencyDescriptor in package videolayerselector) with its Select,
   Rollback and updateDependencyStructure methods.

Collaborators of the selector that live outside the provided sources
(SelectorDecisionCache, FrameChain, DecodeTarget, the Base layer state,
the buffer helpers and the descriptor marshaller) are modelled from the
specification; each such definition carries a doc comment that starts
with the words Modelled from the spec. Logging calls have no observable
effect on selector state or results and are omitted.
-/

/-! ## WrapAround counter extender (Go package utils) -/

/-- State of the Go generic type WrapAround with a raw counter of w bits
(type T) and an extended counter of ew bits (type ET). The field
fullRange of the Go struct is the constant 1 <<< w computed in ET
arithmetic and is given by the function fullRange below. -/
structure WrapAround (w ew : Nat) where
  initialized : Bool
  start : Nat
  highest : Nat
  cycles : Nat
  extendedHighest : Nat
deriving DecidableEq

/-- The constant stored in the fullRange field by NewWrapAround: the ET
value 1 <<< w, that is 2 ^ w reduced modulo 2 ^ ew. -/
def fullRange (w ew : Nat) : Nat := 2 ^ w % 2 ^ ew

/-- NewWrapAround: the zero-initialized extender. -/
def NewWrapAround (w ew : Nat) : WrapAround w ew :=
  { initialized := false, start := 0, highest := 0, cycles := 0, extendedHighest := 0 }

/-- Result record of WrapAround.Update (Go type WrapAroundUpdateResult);
all fields are zero initialized in the Go code. -/
structure WrapAroundUpdateResult where
  IsRestart : Bool
  PreExtendedStart : Nat
  PreExtendedHighest : Nat
  ExtendedVal : Nat
deriving DecidableEq

/-- Subtraction in the w-bit raw type T: (a - b) as unsigned w-bit value. -/
def tsub (w a b : Nat) : Nat := (a + (2 ^ w - b % 2 ^ w)) % 2 ^ w

/-- getExtendedHighest (free function of the Go file): cycles + ET(val),
computed in ew-bit arithmetic. -/
def getExtendedHighest (ew cycles val : Nat) : Nat := (cycles + val) % 2 ^ ew

/-- WrapAround.isWrapBack: ET(later) < fullRange>>1 and
ET(earlier) >= fullRange>>1. -/
def isWrapBack (w ew earlier later : Nat) : Bool :=
  later < fullRange w ew / 2 && fullRange w ew / 2 ≤ earlier

/-- WrapAround.maybeAdjustStart, translated line by line from the source.
The local variable cycles of the Go code is threaded explicitly; the
subtraction cycles - fullRange is ew-bit unsigned subtraction. -/
def maybeAdjustStart {w ew : Nat} (st : WrapAround w ew) (val : Nat) :
    WrapAround w ew × WrapAroundUpdateResult :=
  let fr := fullRange w ew
  let totalNum := ((st.extendedHighest + (2 ^ ew - st.start % 2 ^ ew)) % 2 ^ ew + 1) % 2 ^ ew
  if fr / 2 < totalNum then
    let cycles := if isWrapBack w ew val st.highest
      then (st.cycles + (2 ^ ew - fr % 2 ^ ew)) % 2 ^ ew else st.cycles
    (st, { IsRestart := false
           PreExtendedStart := 0
           PreExtendedHighest := st.extendedHighest
           ExtendedVal := getExtendedHighest ew cycles val })
  else
    if (fr / 2) % 2 ^ w < tsub w val st.start then
      let preExtendedStart := if st.start < val
        then (fr + st.start % 2 ^ ew) % 2 ^ ew else st.start % 2 ^ ew
      let stMid := if isWrapBack w ew val st.highest
        then { st with
            cycles := fr
            extendedHighest := getExtendedHighest ew fr st.highest }
        else st
      let cycles := if isWrapBack w ew val st.highest then 0 else st.cycles
      let stNew := { stMid with start := val }
      (stNew, { IsRestart := true
                PreExtendedStart := preExtendedStart
                PreExtendedHighest := stNew.extendedHighest
                ExtendedVal := getExtendedHighest ew cycles val })
    else
      let cycles := if isWrapBack w ew val st.highest
        then (st.cycles + (2 ^ ew - fr % 2 ^ ew)) % 2 ^ ew else st.cycles
      (st, { IsRestart := false
             PreExtendedStart := 0
             PreExtendedHighest := st.extendedHighest
             ExtendedVal := getExtendedHighest ew cycles val })

/-- WrapAround.Update, translated line by line from the source. The
input val is a raw T value (val < 2 ^ w for well-formed inputs). -/
def Update {w ew : Nat} (st : WrapAround w ew) (val : Nat) :
    WrapAround w ew × WrapAroundUpdateResult :=
  if st.initialized = false then
    let st' := { st with
        start := val
        highest := val
        extendedHighest := getExtendedHighest ew st.cycles val
        initialized := true }
    (st', { IsRestart := false
            PreExtendedStart := 0
            PreExtendedHighest := (val % 2 ^ ew + (2 ^ ew - 1)) % 2 ^ ew
            ExtendedVal := val % 2 ^ ew })
  else
    let gap := tsub w val st.highest
    if (fullRange w ew / 2) % 2 ^ w < gap then
      maybeAdjustStart st val
    else
      let cycles := if val < st.highest
        then (st.cycles + fullRange w ew) % 2 ^ ew else st.cycles
      let st' := { st with
          cycles := cycles
          highest := val
          extendedHighest := getExtendedHighest ew cycles val }
      (st', { IsRestart := false
              PreExtendedStart := 0
              PreExtendedHighest := st.extendedHighest
              ExtendedVal := st'.extendedHighest })

/-- Folding a list of raw values through Update, keeping only the state. -/
def runUpdates {w ew : Nat} (st : WrapAround w ew) (xs : List Nat) : WrapAround w ew :=
  xs.foldl (fun s v => (Update s v).1) st

/-! ## Arithmetic helper lemmas for the extender -/

lemma fullRange_eq_of_lt {w ew : Nat} (hwe : w < ew) : fullRange w ew = 2 ^ w :=
  Nat.mod_eq_of_lt (Nat.pow_lt_pow_right (by norm_num) hwe)

lemma half_mod_self (w : Nat) : 2 ^ w / 2 % 2 ^ w = 2 ^ w / 2 :=
  Nat.mod_eq_of_lt (Nat.div_lt_self (by positivity) (by norm_num))

lemma pow_dvd_fullRange {w ew : Nat} (h : w ≤ ew) : 2 ^ w ∣ fullRange w ew :=
  (Nat.dvd_mod_iff (Nat.pow_dvd_pow 2 h)).mpr dvd_rfl

/-- If the cycles argument is a multiple of the raw range, the produced
extended value reduces to the raw value modulo the raw range. -/
lemma getExtendedHighest_mod {w ew : Nat} (h : w ≤ ew) (c val : Nat)
    (hc : 2 ^ w ∣ c) (hval : val < 2 ^ w) :
    getExtendedHighest ew c val % 2 ^ w = val := by
  unfold getExtendedHighest
  rw [Nat.mod_mod_of_dvd _ (Nat.pow_dvd_pow 2 h), Nat.add_mod,
    Nat.mod_eq_zero_of_dvd hc, Nat.zero_add, Nat.mod_eq_of_lt hval,
    Nat.mod_eq_of_lt hval]

/-- Initial state of the wrap-around scenario of the spec: a 16-bit
frame counter extended to 64 bits, highest observed raw value 65530. -/
def wrapScenarioState : WrapAround 16 64 :=
  { initialized := true, start := 65530, highest := 65530, cycles := 0, extendedHighest := 65530 }

/-- State of the out-of-order straggler scenario: the counter has wrapped
(highest raw value 5 on the second cycle) and more than half the raw
range has been observed since start. -/
def wrapStragglerState : WrapAround 16 64 :=
  { initialized := true, start := 0, highest := 5, cycles := 65536, extendedHighest := 65541 }

/-- Claim C4: on an initialized extender, an Update whose gap
(raw - highest) mod 2 ^ w is at most 2 ^ w / 2 is treated as in-order:
no restart is reported, cycles is incremented by 2 ^ w exactly when the
raw value is numerically below the stored highest, the raw value becomes
the new highest, and the returned extended value is cycles + raw in
2 ^ ew unsigned arithmetic. -/
theorem update_in_order {w ew : Nat} (st : WrapAround w ew) (val : Nat)
    (hwe : w < ew) (hinit : st.initialized = true)
    (hhi : st.highest < 2 ^ w)
    (hgap : (val + (2 ^ w - st.highest)) % 2 ^ w ≤ 2 ^ w / 2) :
    (Update st val).2.IsRestart = false ∧
    (Update st val).1.highest = val ∧
    (Update st val).1.cycles =
      (if val < st.highest then (st.cycles + 2 ^ w) % 2 ^ ew else st.cycles) ∧
    (Update st val).2.ExtendedVal = ((Update st val).1.cycles + val) % 2 ^ ew := by
  have hfr := fullRange_eq_of_lt hwe
  have hcond : ¬ ((fullRange w ew / 2) % 2 ^ w < tsub w val st.highest) := by
    rw [hfr, half_mod_self, tsub, Nat.mod_eq_of_lt hhi]
    exact Nat.not_lt.mpr hgap
  unfold Update
  rw [hinit]
  simp only [Bool.true_eq_false, if_false]
  rw [if_neg hcond]
  refine ⟨rfl, rfl, ?_, ?_⟩
  · rw [hfr]
  · rw [hfr]; rfl

/-- Claim C4 witness: the literal wrap-around scenario of the spec; the
first step instantiates the theorem, and the chain of raw inputs
65534, 65535, 0, 1 from highest 65530 yields extended values
65534, 65535, 65536, 65537 with no restart reported. -/
theorem update_in_order_witness :
    ((Update wrapScenarioState 65534).2.IsRestart = false ∧
     (Update wrapScenarioState 65534).1.highest = 65534 ∧
     (Update wrapScenarioState 65534).1.cycles =
       (if 65534 < wrapScenarioState.highest
        then (wrapScenarioState.cycles + 2 ^ 16) % 2 ^ 64 else wrapScenarioState.cycles) ∧
     (Update wrapScenarioState 65534).2.ExtendedVal =
       ((Update wrapScenarioState 65534).1.cycles + 65534) % 2 ^ 64) ∧
    ((Update wrapScenarioState 65534).2.ExtendedVal = 65534 ∧
     (Update (Update wrapScenarioState 65534).1 65535).2.ExtendedVal = 65535 ∧
     (Update (Update (Update wrapScenarioState 65534).1 65535).1 0).2.ExtendedVal = 65536 ∧
     (Update (Update (Update (Update wrapScenarioState 65534).1 65535).1 0).1 1).2.ExtendedVal = 65537 ∧
     (Update wrapScenarioState 65534).2.IsRestart = false ∧
     (Update (Update wrapScenarioState 65534).1 65535).2.IsRestart = false ∧
     (Update (Update (Update wrapScenarioState 65534).1 65535).1 0).2.IsRestart = false ∧
     (Update (Update (Update (Update wrapScenarioState 65534).1 65535).1 0).1 1).2.IsRestart = false) :=
  ⟨update_in_order wrapScenarioState 65534 (by decide) rfl (by decide) (by decide),
   by decide⟩

/-- Claim C5: when the observed span extendedHighest - extendedStart + 1
exceeds half the raw range, an out-of-order Update (gap above half the raw
range) leaves the whole extender state unchanged, and when the raw value
lies in the upper half of the range while highest lies in the lower half,
the returned extended value is computed with the temporary cycles value
cycles - 2 ^ w (unsigned 2 ^ ew arithmetic). -/
theorem update_straggler_no_mutation {w ew : Nat} (st : WrapAround w ew) (val : Nat)
    (hwe : w < ew) (hinit : st.initialized = true)
    (hhi : st.highest < 2 ^ w) (hstart : st.start < 2 ^ w)
    (hgap : 2 ^ w / 2 < (val + (2 ^ w - st.highest)) % 2 ^ w)
    (hspan : 2 ^ w / 2 <
      ((st.extendedHighest + (2 ^ ew - st.start)) % 2 ^ ew + 1) % 2 ^ ew) :
    (Update st val).1 = st ∧
    (st.highest < 2 ^ w / 2 → 2 ^ w / 2 ≤ val →
      (Update st val).2.ExtendedVal =
        ((st.cycles + (2 ^ ew - 2 ^ w)) % 2 ^ ew + val) % 2 ^ ew) := by
  have hfr := fullRange_eq_of_lt hwe
  have hplt : (2:Nat) ^ w < 2 ^ ew := Nat.pow_lt_pow_right (by norm_num) hwe
  have hcond : (fullRange w ew / 2) % 2 ^ w < tsub w val st.highest := by
    rw [hfr, half_mod_self, tsub, Nat.mod_eq_of_lt hhi]
    exact hgap
  have hspan' : fullRange w ew / 2 <
      ((st.extendedHighest + (2 ^ ew - st.start % 2 ^ ew)) % 2 ^ ew + 1) % 2 ^ ew := by
    rw [hfr, Nat.mod_eq_of_lt (lt_trans hstart hplt)]
    exact hspan
  unfold Update
  rw [hinit]
  simp only [Bool.true_eq_false, if_false]
  rw [if_pos hcond]
  unfold maybeAdjustStart
  rw [if_pos hspan']
  refine ⟨rfl, fun h1 h2 => ?_⟩
  have hwb : isWrapBack w ew val st.highest = true := by
    unfold isWrapBack
    rw [hfr]
    simp only [Bool.and_eq_true, decide_eq_true_eq]
    exact ⟨h1, h2⟩
  show getExtendedHighest ew
      (if isWrapBack w ew val st.highest = true
       then (st.cycles + (2 ^ ew - fullRange w ew % 2 ^ ew)) % 2 ^ ew else st.cycles) val =
    ((st.cycles + (2 ^ ew - 2 ^ w)) % 2 ^ ew + val) % 2 ^ ew
  rw [if_pos hwb]
  unfold getExtendedHighest
  rw [hfr, Nat.mod_eq_of_lt hplt]

/-- Claim C5 witness: the literal straggler scenario of the spec; raw
value 65533 arrives while highest is 5 after a wrap, the state is
unchanged and the extended value 65533 is produced with the temporary
cycles value cycles - 2 ^ 16. -/
theorem update_straggler_no_mutation_witness :
    (Update wrapStragglerState 65533).1 = wrapStragglerState ∧
    (Update wrapStragglerState 65533).2.ExtendedVal =
      ((wrapStragglerState.cycles + (2 ^ 64 - 2 ^ 16)) % 2 ^ 64 + 65533) % 2 ^ 64 ∧
    (Update wrapStragglerState 65533).2.ExtendedVal = 65533 :=
  ⟨(update_straggler_no_mutation wrapStragglerState 65533 (by decide) rfl (by decide)
      (by decide) (by decide) (by decide)).1,
   (update_straggler_no_mutation wrapStragglerState 65533 (by decide) rfl (by decide)
      (by decide) (by decide) (by decide)).2 (by decide) (by decide),
   by decide⟩

/-- Every cycles value produced by Update remains a multiple of the raw
range 2 ^ w (in particular the unsigned underflow of the temporary
cycles value preserves this). -/
lemma update_cycles_dvd {w ew : Nat} (h : w ≤ ew) (st : WrapAround w ew) (val : Nat)
    (hc : 2 ^ w ∣ st.cycles) : 2 ^ w ∣ (Update st val).1.cycles := by
  have hew : (2:Nat) ^ w ∣ 2 ^ ew := Nat.pow_dvd_pow 2 h
  have hfr : (2:Nat) ^ w ∣ fullRange w ew := pow_dvd_fullRange h
  unfold Update maybeAdjustStart
  by_cases h0 : st.initialized = false
  · rw [if_pos h0]; exact hc
  · rw [if_neg h0]
    by_cases h1 : fullRange w ew / 2 % 2 ^ w < tsub w val st.highest
    · rw [if_pos h1]
      by_cases h2 : fullRange w ew / 2 <
          ((st.extendedHighest + (2 ^ ew - st.start % 2 ^ ew)) % 2 ^ ew + 1) % 2 ^ ew
      · rw [if_pos h2]; exact hc
      · rw [if_neg h2]
        by_cases h3 : fullRange w ew / 2 % 2 ^ w < tsub w val st.start
        · rw [if_pos h3]
          cases hwb : isWrapBack w ew val st.highest with
          | true => simp only [if_true]; exact hfr
          | false => simp only [Bool.false_eq_true, if_false]; exact hc
        · rw [if_neg h3]; exact hc
    · rw [if_neg h1]
      by_cases h4 : val < st.highest
      · rw [if_pos h4]; exact (Nat.dvd_mod_iff hew).mpr (Nat.dvd_add hc hfr)
      · rw [if_neg h4]; exact hc

/-- In every branch of Update the returned extended value reduces to the
raw input modulo the raw range, provided cycles is a multiple of 2 ^ w. -/
lemma update_extval_mod {w ew : Nat} (h : w ≤ ew) (st : WrapAround w ew) (val : Nat)
    (hc : 2 ^ w ∣ st.cycles) (hval : val < 2 ^ w) :
    (Update st val).2.ExtendedVal % 2 ^ w = val := by
  have hew : (2:Nat) ^ w ∣ 2 ^ ew := Nat.pow_dvd_pow 2 h
  have hfr : (2:Nat) ^ w ∣ fullRange w ew := pow_dvd_fullRange h
  have hsub : (2:Nat) ^ w ∣ (2 ^ ew - fullRange w ew % 2 ^ ew) :=
    Nat.dvd_sub' hew ((Nat.dvd_mod_iff hew).mpr hfr)
  have hdown : (2:Nat) ^ w ∣ (st.cycles + (2 ^ ew - fullRange w ew % 2 ^ ew)) % 2 ^ ew :=
    (Nat.dvd_mod_iff hew).mpr (Nat.dvd_add hc hsub)
  unfold Update maybeAdjustStart
  by_cases h0 : st.initialized = false
  · rw [if_pos h0]
    show val % 2 ^ ew % 2 ^ w = val
    rw [Nat.mod_mod_of_dvd _ hew, Nat.mod_eq_of_lt hval]
  · rw [if_neg h0]
    by_cases h1 : fullRange w ew / 2 % 2 ^ w < tsub w val st.highest
    · rw [if_pos h1]
      by_cases h2 : fullRange w ew / 2 <
          ((st.extendedHighest + (2 ^ ew - st.start % 2 ^ ew)) % 2 ^ ew + 1) % 2 ^ ew
      · rw [if_pos h2]
        cases hwb : isWrapBack w ew val st.highest with
        | true =>
          simp only [if_true]
          exact getExtendedHighest_mod h _ _ hdown hval
        | false =>
          simp only [Bool.false_eq_true, if_false]
          exact getExtendedHighest_mod h _ _ hc hval
      · rw [if_neg h2]
        by_cases h3 : fullRange w ew / 2 % 2 ^ w < tsub w val st.start
        · rw [if_pos h3]
          cases hwb : isWrapBack w ew val st.highest with
          | true =>
            simp only [if_true]
            exact getExtendedHighest_mod h _ _ (dvd_zero _) hval
          | false =>
            simp only [Bool.false_eq_true, if_false]
            exact getExtendedHighest_mod h _ _ hc hval
        · rw [if_neg h3]
          cases hwb : isWrapBack w ew val st.highest with
          | true =>
            simp only [if_true]
            exact getExtendedHighest_mod h _ _ hdown hval
          | false =>
            simp only [Bool.false_eq_true, if_false]
            exact getExtendedHighest_mod h _ _ hc hval
    · rw [if_neg h1]
      by_cases h4 : val < st.highest
      · rw [if_pos h4]
        exact getExtendedHighest_mod h _ _ ((Nat.dvd_mod_iff hew).mpr (Nat.dvd_add hc hfr)) hval
      · rw [if_neg h4]
        exact getExtendedHighest_mod h _ _ hc hval

/-- Along any sequence of Update calls started from NewWrapAround, the
cycles field stays a multiple of the raw range. -/
lemma runUpdates_cycles_dvd {w ew : Nat} (h : w ≤ ew) (xs : List Nat)
    (st : WrapAround w ew) (hc : 2 ^ w ∣ st.cycles) :
    2 ^ w ∣ (runUpdates st xs).cycles := by
  induction xs generalizing st with
  | nil => exact hc
  | cons y ys ih => exact ih _ (update_cycles_dvd h st y hc)

/-- Claim C9: after any sequence of Update calls from a fresh extender,
the extended value returned for a raw input x satisfies
extended(x) mod 2 ^ w = x, in every branch of Update, including the
branches where the temporary cycles value underflows in unsigned
arithmetic. -/
theorem update_extended_roundtrip (w ew : Nat) (h : w ≤ ew) (xs : List Nat) (x : Nat)
    (hx : x < 2 ^ w) :
    (Update (runUpdates (NewWrapAround w ew) xs) x).2.ExtendedVal % 2 ^ w = x :=
  update_extval_mod h _ x (runUpdates_cycles_dvd h xs _ (dvd_zero _)) hx

/-- Claim C9 witness: the round trip at a concrete history (an in-order
step then a wrapping step) and input 700 on the 16-to-32-bit extender. -/
theorem update_extended_roundtrip_witness :
    (16 ≤ 32 ∧ 700 < 2 ^ 16) ∧
    (Update (runUpdates (NewWrapAround 16 32) [65534, 0]) 700).2.ExtendedVal % 2 ^ 16 = 700 :=
  ⟨⟨by decide, by decide⟩,
   update_extended_roundtrip 16 32 (by decide) [65534, 0] 700 (by decide)⟩

/-! ## Video layer selector data model -/

/-- Modelled from the spec: buffer.VideoLayer, a pair of spatial and
temporal layer indices with the sentinel Invalid = (-1, -1). -/
structure VideoLayer where
  spatial : Int
  temporal : Int
deriving DecidableEq

/-- Modelled from the spec: the invalid layer sentinel. -/
def InvalidLayer : VideoLayer := { spatial := -1, temporal := -1 }

/-- Modelled from the spec: a layer is valid when neither coordinate is
the sentinel value. -/
def VideoLayer.IsValid (v : VideoLayer) : Bool :=
  v.spatial != -1 && v.temporal != -1

/-- Modelled from the spec: the decision recorded per extended frame
number by the selector decision cache. -/
inductive SelectorDecision where
  | unknown
  | forwarded
  | dropped
deriving DecidableEq

/-- Modelled from the spec: SelectorDecisionCache (not under src), a
bounded sliding window of decisions keyed by extended frame number with
ring capacity size and hysteresis margin; keys below
highest - size + margin are too old. Entries are an association list
from extended frame number to the recorded decision. -/
structure SelectorDecisionCache where
  size : Nat
  margin : Nat
  highest : Nat
  entries : List (Nat × SelectorDecision)
deriving DecidableEq

/-- Modelled from the spec: NewSelectorDecisionCache. -/
def NewSelectorDecisionCache (size margin : Nat) : SelectorDecisionCache :=
  { size := size, margin := margin, highest := 0, entries := [] }

/-- Modelled from the spec: get_decision; none models the TooOld error,
some unknown a key inside the window that was never written. -/
def GetDecision (c : SelectorDecisionCache) (efn : Nat) : Option SelectorDecision :=
  if efn + c.size < c.highest + c.margin then none
  else match c.entries.lookup efn with
    | some sd => some sd
    | none => some SelectorDecision.unknown

/-- Modelled from the spec: add_forwarded and add_dropped; the first
write for a key wins, writes to keys that are too old have no effect,
the highest key advances on insert and entries that fall out of the
window are evicted. -/
def addDecision (c : SelectorDecisionCache) (efn : Nat) (sd : SelectorDecision) :
    SelectorDecisionCache :=
  if efn + c.size < c.highest + c.margin then c
  else match c.entries.lookup efn with
    | some _ => c
    | none =>
      let h := max c.highest efn
      { c with
          highest := h
          entries := ((efn, sd) :: c.entries).filter
            (fun e => decide (h + c.margin ≤ e.1 + c.size)) }

/-- DecodeTargetIndication values of the dependency descriptor
(dede.DecodeTargetNotPresent and friends). -/
inductive DecodeTargetIndication where
  | notPresent
  | discardable
  | switchDti
  | required
deriving DecidableEq

/-- dede.FrameDependencyStructure: chain count, decode target count and
the protecting chain index per decode target. -/
structure FrameDependencyStructure where
  numChains : Nat
  numDecodeTargets : Nat
  decodeTargetProtectedByChain : List Nat
deriving DecidableEq

/-- dede.FrameDependencyTemplate, the FrameDependencies of a packet:
spatial and temporal id, frame diffs, per-target decode target
indications and per-chain previous-frame diffs. -/
structure FrameDependencyTemplate where
  spatialId : Nat
  temporalId : Nat
  frameDiffs : List Nat
  decodeTargetIndications : List DecodeTargetIndication
  chainDiffs : List Nat
deriving DecidableEq

/-- dede.DependencyDescriptor, the parsed dependency descriptor of a
packet; the namespace Dede mirrors the Go package alias dede. -/
structure Dede.DependencyDescriptor where
  frameNumber : Nat
  frameDependencies : FrameDependencyTemplate
  attachedStructure : Option FrameDependencyStructure
  activeDecodeTargetsBitmask : Option Nat
  lastPacketInFrame : Bool
deriving DecidableEq

/-- Modelled from the spec: buffer.DependencyDescriptorDecodeTarget, a
decode target index paired with its video layer. -/
structure DependencyDescriptorDecodeTarget where
  target : Int
  layer : VideoLayer
deriving DecidableEq

/-- Modelled from the spec: the parsed descriptor together with the
decode-target list and update flags that the buffer attaches to a
packet (the DependencyDescriptor field of ExtPacket). -/
structure DependencyDescriptorWithDecodeTargets where
  descriptor : Dede.DependencyDescriptor
  extFrameNum : Nat
  structureUpdated : Bool
  activeDecodeTargetsUpdated : Bool
  decodeTargets : List DependencyDescriptorDecodeTarget
  integrity : Bool
deriving DecidableEq

/-- Modelled from the spec: the slice of buffer.ExtPacket that Select
observes, the optional dependency descriptor and the RTP header marker
bit; fields that are only logged are omitted. -/
structure ExtPacket where
  dependencyDescriptor : Option DependencyDescriptorWithDecodeTargets
  marker : Bool
deriving DecidableEq

/-- Unsigned 64-bit subtraction a - b as used for extended frame number
arithmetic. -/
def u64sub (a b : Nat) : Nat := (a + (2 ^ 64 - b % 2 ^ 64)) % 2 ^ 64

/-- Modelled from the spec: per-chain integrity state (FrameChain is not
under src); expectedPrevious is the extended frame number of the
expected previous frame of the chain. -/
structure FrameChain where
  chainIdx : Nat
  expectedPrevious : Nat
  active : Bool
  broken : Bool
deriving DecidableEq

/-- Modelled from the spec: NewFrameChain; a freshly built chain (new
structure arriving on a keyframe) is unbroken. -/
def NewFrameChain (chainIdx : Nat) : FrameChain :=
  { chainIdx := chainIdx, expectedPrevious := 0, active := true, broken := false }

/-- Modelled from the spec: FrameChain.OnFrame. The previous frame in
this chain is efn minus the raw chain diff; when it matches the
expected previous frame the chain head advances; on a mismatch the
chain is marked broken when the expected previous frame was dropped or
too old, and otherwise left waiting (out-of-order tolerance). -/
def FrameChain.onFrame (cache : SelectorDecisionCache) (fc : FrameChain)
    (efn : Nat) (fd : FrameDependencyTemplate) : FrameChain :=
  if !fc.active || fc.broken then fc
  else
    let diff := fd.chainDiffs.getD fc.chainIdx 0
    if diff == 0 then { fc with expectedPrevious := efn }
    else if u64sub efn diff == fc.expectedPrevious then { fc with expectedPrevious := efn }
    else match GetDecision cache fc.expectedPrevious with
      | none => { fc with broken := true }
      | some SelectorDecision.dropped => { fc with broken := true }
      | some _ => fc

/-- Modelled from the spec: DecodeTarget state; the protecting chain is
referenced by index into the chain list (arena plus index modelling per
the design notes of the spec), none when no chain protects the target. -/
structure DecodeTarget where
  target : Int
  layer : VideoLayer
  chainIdx : Option Nat
  active : Bool
deriving DecidableEq

/-- Modelled from the spec: NewDecodeTarget; a decode target freshly
built from a new structure starts active until the next bitmask update
(the clean keyframe bootstrap scenario of the spec selects directly
after a structure update). -/
def NewDecodeTarget (dt : DependencyDescriptorDecodeTarget) (chainIdx : Option Nat) :
    DecodeTarget :=
  { target := dt.target, layer := dt.layer, chainIdx := chainIdx, active := true }

/-- DecodeTarget.Active accessor. -/
def DecodeTarget.Active (dt : DecodeTarget) : Bool := dt.active

/-- Result of DecodeTarget.OnFrame. -/
structure FrameDetectionResult where
  dti : DecodeTargetIndication
  targetValid : Bool
deriving DecidableEq

/-- Modelled from the spec: DecodeTarget.OnFrame reads the DTI of this
target from the frame (error when the frame carries no DTI entry for
the target index) and reports the target valid when it is active and
its protecting chain, if any, is unbroken; the comparison of the DTI
against NotPresent is performed by the caller (the TargetNotPresent
disposition of the error table of the spec). -/
def DecodeTarget.onFrame (chains : List FrameChain) (dt : DecodeTarget)
    (_efn : Nat) (fd : FrameDependencyTemplate) : Except Unit FrameDetectionResult :=
  match fd.decodeTargetIndications.get? dt.target.toNat with
  | none => Except.error ()
  | some dti =>
    let chainOk := match dt.chainIdx with
      | none => true
      | some ci =>
        ((chains.find? (fun c => c.chainIdx == ci)).map (fun c => !c.broken)).getD true
    Except.ok { dti := dti, targetValid := dt.active && chainOk }

/-- Modelled from the spec: buffer.GetActiveDecodeTargetBitmask, the OR
of 1 <<< i over every decode target i whose layer is at most the given
layer in both dimensions (32-bit bitmask). -/
def GetActiveDecodeTargetBitmask (layer : VideoLayer)
    (dts : List DependencyDescriptorDecodeTarget) : Option Nat :=
  some ((dts.foldl (fun acc dt =>
    if dt.layer.spatial ≤ layer.spatial && dt.layer.temporal ≤ layer.temporal
    then acc ||| (1 <<< dt.target.toNat) else acc) 0) % 2 ^ 32)

/-- dede.DependencyDescriptorExtension, the descriptor coupled with the
structure used for marshalling (the Structure field is named
ddStructure). -/
structure DependencyDescriptorExtension where
  descriptor : Dede.DependencyDescriptor
  ddStructure : Option FrameDependencyStructure
deriving DecidableEq

/-- The slice of VideoLayerSelectorResult written by Select; the
rewritten extension bytes are abstracted as the marshaller output. -/
structure VideoLayerSelectorResult where
  isSelected : Bool
  isRelevant : Bool
  isSwitching : Bool
  isResuming : Bool
  rtpMarker : Bool
  dependencyDescriptorExtension : Option (List Nat)
deriving DecidableEq

/-- State of the videolayerselector.DependencyDescriptor selector. The
embedded Base contributes currentLayer, previousLayer and targetLayer
(the remaining Base fields are only logged by the translated methods);
ddStructure mirrors the structure field of the Go struct. -/
structure DependencyDescriptor where
  currentLayer : VideoLayer
  previousLayer : VideoLayer
  targetLayer : VideoLayer
  decisions : SelectorDecisionCache
  previousActiveDecodeTargetsBitmask : Option Nat
  activeDecodeTargetsBitmask : Option Nat
  ddStructure : Option FrameDependencyStructure
  chains : List FrameChain
  decodeTargets : List DecodeTarget
deriving DecidableEq

/-! ## Selector operations (translated from the source) -/

/-- DependencyDescriptor.updateDependencyStructure (lines 287 to 314 of
the source): store the structure, rebuild one chain per chain index and
rebuild the decode-target list; when the protecting chain index of a
target is at least the number of chains, the source logs an error and
the target keeps a nil chain, but it is still appended to the list. -/
def updateDependencyStructure (d : DependencyDescriptor)
    (s : FrameDependencyStructure)
    (decodeTargets : List DependencyDescriptorDecodeTarget) : DependencyDescriptor :=
  let chains := (List.range s.numChains).map (fun chainIdx => NewFrameChain chainIdx)
  let newTargets := decodeTargets.map (fun dt =>
    let chain : Option Nat :=
      if 0 < s.numChains then
        let chainIdx := s.decodeTargetProtectedByChain.getD dt.target.toNat 0
        if chains.length ≤ chainIdx then none
        else some chainIdx
      else none
    NewDecodeTarget dt chain)
  { d with
      ddStructure := some s
      chains := chains
      decodeTargets := newTargets }

/-- DependencyDescriptor.updateActiveDecodeTargets (lines 316 to 330),
with the chain bracketing BeginUpdateActive and EndUpdateActive
modelled from the spec: every decode target updates its active flag
from the bitmask, and each chain recomputes its active flag as whether
some active decode target is protected by it. -/
def updateActiveDecodeTargets (d : DependencyDescriptor) (bitmask : Nat) :
    DependencyDescriptor :=
  let newTargets := d.decodeTargets.map (fun dt =>
    { dt with active := bitmask.testBit dt.target.toNat })
  let newChains := d.chains.map (fun ch =>
    { ch with active := newTargets.any (fun dt => dt.active && dt.chainIdx == some ch.chainIdx) })
  { d with
      chains := newChains
      decodeTargets := newTargets }

/-- The decode-target scan of Select (lines 127 to 147 of the source):
skip targets that are inactive or above the target layer, abort on a
DTI extraction error, and return the first target reported valid
together with its DTI. -/
def findTarget (chains : List FrameChain) (targetLayer : VideoLayer)
    (efn : Nat) (fd : FrameDependencyTemplate) :
    List DecodeTarget →
      Except Unit (Option (DependencyDescriptorDecodeTarget × DecodeTargetIndication))
  | [] => Except.ok none
  | dt :: rest =>
    if !dt.Active || decide (targetLayer.spatial < dt.layer.spatial) ||
        decide (targetLayer.temporal < dt.layer.temporal) then
      findTarget chains targetLayer efn fd rest
    else
      match dt.onFrame chains efn fd with
      | Except.error e => Except.error e
      | Except.ok fr =>
        if fr.targetValid then
          Except.ok (some ({ target := dt.target, layer := dt.layer }, fr.dti))
        else findTarget chains targetLayer efn fd rest

/-- The decodability check of Select (lines 184 to 196): every nonzero
frame diff must not refer to a dropped frame; too old and unknown
decisions are tolerated. -/
def isDecodable (cache : SelectorDecisionCache) (efn : Nat)
    (fd : FrameDependencyTemplate) : Bool :=
  fd.frameDiffs.all (fun fdiff =>
    fdiff == 0 || !(GetDecision cache (u64sub efn fdiff) == some SelectorDecision.dropped))

/-- Recording a dropped decision for the current frame. -/
def addDroppedState (d : DependencyDescriptor) (efn : Nat) : DependencyDescriptor :=
  { d with decisions := addDecision d.decisions efn SelectorDecision.dropped }

/-- The layer switch block of Select (lines 213 to 250): record
switching (and resuming when the current layer was invalid), save the
previous layer and bitmask, install the chosen layer and recompute the
active bitmask from the packet decode targets. -/
def applyLayerSwitch (d : DependencyDescriptor)
    (hdt : DependencyDescriptorDecodeTarget)
    (ddwdt : DependencyDescriptorWithDecodeTargets)
    (r : VideoLayerSelectorResult) :
    DependencyDescriptor × VideoLayerSelectorResult :=
  ({ d with
      previousLayer := d.currentLayer
      currentLayer := hdt.layer
      previousActiveDecodeTargetsBitmask := d.activeDecodeTargetsBitmask
      activeDecodeTargetsBitmask := GetActiveDecodeTargetBitmask hdt.layer ddwdt.decodeTargets },
   { r with
      isSwitching := true
      isResuming := !d.currentLayer.IsValid || r.isResuming
      isRelevant := true })

/-- The rewrite step of Select (lines 252 to 265): the outgoing
extension couples the descriptor with the stored structure; when the
incoming descriptor carries no attached structure and an active bitmask
is stored, the descriptor is cloned with the bitmask overridden. -/
def buildDDExtension (d : DependencyDescriptor) (dd : Dede.DependencyDescriptor) :
    DependencyDescriptorExtension :=
  if dd.attachedStructure = none then
    match d.activeDecodeTargetsBitmask with
    | some bm =>
      { descriptor := { dd with activeDecodeTargetsBitmask := some bm }
        ddStructure := d.ddStructure }
    | none => { descriptor := dd, ddStructure := d.ddStructure }
  else { descriptor := dd, ddStructure := d.ddStructure }

/-- On marshal success the rewritten extension bytes are attached to the
result; on failure the result is unchanged (lines 266 to 271). -/
def attachExtension (o : Option (List Nat)) (r : VideoLayerSelectorResult) :
    VideoLayerSelectorResult :=
  match o with
  | none => r
  | some bytes => { r with dependencyDescriptorExtension := some bytes }

/-- The tail of Select (lines 266 to 278): marshal the rewritten
extension (on failure the packet is surfaced without it and a warning
is logged), record a forwarded decision when the frame has integrity,
compute the RTP marker and report the packet selected. -/
def finishSelect (marshal : DependencyDescriptorExtension → Option (List Nat))
    (d : DependencyDescriptor) (extPkt : ExtPacket)
    (ddwdt : DependencyDescriptorWithDecodeTargets)
    (r : VideoLayerSelectorResult) :
    DependencyDescriptor × VideoLayerSelectorResult :=
  let dd := ddwdt.descriptor
  let r1 := attachExtension (marshal (buildDDExtension d dd)) r
  let d1 := if ddwdt.integrity
    then { d with decisions := addDecision d.decisions ddwdt.extFrameNum SelectorDecision.forwarded }
    else d
  (d1, { r1 with
      rtpMarker := extPkt.marker ||
        (dd.lastPacketInFrame && d1.currentLayer.spatial == (dd.frameDependencies.spatialId : Int))
      isSelected := true })

/-- Lines 213 to 278 of Select: the layer switch decision followed by
the rewrite and bookkeeping tail. -/
def selectCore3 (marshal : DependencyDescriptorExtension → Option (List Nat))
    (d : DependencyDescriptor) (extPkt : ExtPacket)
    (ddwdt : DependencyDescriptorWithDecodeTargets)
    (hdt : DependencyDescriptorDecodeTarget)
    (r : VideoLayerSelectorResult) :
    DependencyDescriptor × VideoLayerSelectorResult :=
  if d.currentLayer ≠ hdt.layer then
    let dr := applyLayerSwitch d hdt ddwdt r
    finishSelect marshal dr.1 extPkt ddwdt dr.2
  else finishSelect marshal d extPkt ddwdt r

/-- Lines 106 to 108 of Select: the structure update when the packet
announces one. In Go a structure update flag set without the attached
structure pointer would dereference nil; the embedding performs no
update in that case. -/
def applyStructureUpdate (d : DependencyDescriptor)
    (ddwdt : DependencyDescriptorWithDecodeTargets) : DependencyDescriptor :=
  if ddwdt.structureUpdated then
    match ddwdt.descriptor.attachedStructure with
    | some s => updateDependencyStructure d s ddwdt.decodeTargets
    | none => d
  else d

/-- Lines 110 to 112 of Select: the active decode targets update when
the packet announces one (same nil caveat as the structure update). -/
def applyActiveUpdate (d : DependencyDescriptor)
    (ddwdt : DependencyDescriptorWithDecodeTargets) : DependencyDescriptor :=
  if ddwdt.activeDecodeTargetsUpdated then
    match ddwdt.descriptor.activeDecodeTargetsBitmask with
    | some bm => updateActiveDecodeTargets d bm
    | none => d
  else d

/-- Lines 114 to 116 of Select: every chain observes the frame. -/
def advanceChains (d : DependencyDescriptor) (efn : Nat)
    (fd : FrameDependencyTemplate) : DependencyDescriptor :=
  { d with chains := d.chains.map (fun c => FrameChain.onFrame d.decisions c efn fd) }

/-- Lines 106 to 116 of Select: the structure update, the active decode
targets update and the chain advancement, composed. -/
def applyUpdates (d : DependencyDescriptor)
    (ddwdt : DependencyDescriptorWithDecodeTargets) : DependencyDescriptor :=
  advanceChains (applyActiveUpdate (applyStructureUpdate d ddwdt) ddwdt)
    ddwdt.extFrameNum ddwdt.descriptor.frameDependencies

/-- Lines 106 to 211 of Select: structure and active-bitmask updates,
chain advancement, the decode-target scan, the NotPresent check and
the decodability check; r0 is the early result value. -/
def selectCore2 (marshal : DependencyDescriptorExtension → Option (List Nat))
    (d : DependencyDescriptor) (extPkt : ExtPacket)
    (ddwdt : DependencyDescriptorWithDecodeTargets)
    (r0 : VideoLayerSelectorResult) :
    DependencyDescriptor × VideoLayerSelectorResult :=
  match findTarget (applyUpdates d ddwdt).chains (applyUpdates d ddwdt).targetLayer
      ddwdt.extFrameNum ddwdt.descriptor.frameDependencies
      (applyUpdates d ddwdt).decodeTargets with
  | Except.error _ => (addDroppedState (applyUpdates d ddwdt) ddwdt.extFrameNum, r0)
  | Except.ok none => (addDroppedState (applyUpdates d ddwdt) ddwdt.extFrameNum, r0)
  | Except.ok (some (hdt, dti)) =>
    if dti = DecodeTargetIndication.notPresent then
      (addDroppedState (applyUpdates d ddwdt) ddwdt.extFrameNum, r0)
    else if isDecodable (applyUpdates d ddwdt).decisions ddwdt.extFrameNum
        ddwdt.descriptor.frameDependencies then
      selectCore3 marshal (applyUpdates d ddwdt) extPkt ddwdt hdt r0
    else (addDroppedState (applyUpdates d ddwdt) ddwdt.extFrameNum, r0)

/-- The zero result value of Select with IsRelevant set when the current
layer is valid (lines 59 to 63). -/
def selectR0 (d : DependencyDescriptor) : VideoLayerSelectorResult :=
  { isSelected := false
    isRelevant := d.currentLayer.IsValid
    isSwitching := false
    isResuming := false
    rtpMarker := false
    dependencyDescriptorExtension := none }

/-- DependencyDescriptor.Select (lines 59 to 279 of the source). The
layer argument of the Go method is unused by the source and omitted;
the marshaller of the extension is passed as a function. -/
def Select (marshal : DependencyDescriptorExtension → Option (List Nat))
    (d : DependencyDescriptor) (extPkt : ExtPacket) :
    DependencyDescriptor × VideoLayerSelectorResult :=
  match extPkt.dependencyDescriptor with
  | none => (d, selectR0 d)
  | some ddwdt =>
    match GetDecision d.decisions ddwdt.extFrameNum with
    | none => (d, selectR0 d)
    | some sd =>
      if sd = SelectorDecision.dropped then (d, selectR0 d)
      else selectCore2 marshal d extPkt ddwdt (selectR0 d)

/-- DependencyDescriptor.Rollback (lines 281 to 285): restore the active
bitmask from its saved value; Base.Rollback (modelled from the spec)
restores the current layer from the previous layer. The decision cache
is untouched. -/
def Rollback (d : DependencyDescriptor) : DependencyDescriptor :=
  { d with
      activeDecodeTargetsBitmask := d.previousActiveDecodeTargetsBitmask
      currentLayer := d.previousLayer }

/-! ## Helper lemmas about the selector stages -/

lemma attachExtension_isSelected (o : Option (List Nat)) (r : VideoLayerSelectorResult) :
    (attachExtension o r).isSelected = r.isSelected := by cases o <;> rfl

lemma attachExtension_isSwitching (o : Option (List Nat)) (r : VideoLayerSelectorResult) :
    (attachExtension o r).isSwitching = r.isSwitching := by cases o <;> rfl

lemma attachExtension_isResuming (o : Option (List Nat)) (r : VideoLayerSelectorResult) :
    (attachExtension o r).isResuming = r.isResuming := by cases o <;> rfl

lemma attachExtension_isRelevant (o : Option (List Nat)) (r : VideoLayerSelectorResult) :
    (attachExtension o r).isRelevant = r.isRelevant := by cases o <;> rfl

lemma finishSelect_state (m : DependencyDescriptorExtension → Option (List Nat))
    (d : DependencyDescriptor) (p : ExtPacket)
    (ddwdt : DependencyDescriptorWithDecodeTargets) (r : VideoLayerSelectorResult) :
    (finishSelect m d p ddwdt r).1 =
      (if ddwdt.integrity = true
       then { d with decisions := addDecision d.decisions ddwdt.extFrameNum SelectorDecision.forwarded }
       else d) := rfl

lemma finishSelect_isSelected (m : DependencyDescriptorExtension → Option (List Nat))
    (d : DependencyDescriptor) (p : ExtPacket)
    (ddwdt : DependencyDescriptorWithDecodeTargets) (r : VideoLayerSelectorResult) :
    (finishSelect m d p ddwdt r).2.isSelected = true := rfl

lemma finishSelect_isSwitching (m : DependencyDescriptorExtension → Option (List Nat))
    (d : DependencyDescriptor) (p : ExtPacket)
    (ddwdt : DependencyDescriptorWithDecodeTargets) (r : VideoLayerSelectorResult) :
    (finishSelect m d p ddwdt r).2.isSwitching = r.isSwitching :=
  attachExtension_isSwitching _ r

lemma finishSelect_isResuming (m : DependencyDescriptorExtension → Option (List Nat))
    (d : DependencyDescriptor) (p : ExtPacket)
    (ddwdt : DependencyDescriptorWithDecodeTargets) (r : VideoLayerSelectorResult) :
    (finishSelect m d p ddwdt r).2.isResuming = r.isResuming :=
  attachExtension_isResuming _ r

lemma selectCore3_isSelected (m : DependencyDescriptorExtension → Option (List Nat))
    (d : DependencyDescriptor) (p : ExtPacket)
    (ddwdt : DependencyDescriptorWithDecodeTargets)
    (hdt : DependencyDescriptorDecodeTarget) (r : VideoLayerSelectorResult) :
    (selectCore3 m d p ddwdt hdt r).2.isSelected = true := by
  unfold selectCore3
  by_cases h : d.currentLayer ≠ hdt.layer
  · rw [if_pos h]; exact finishSelect_isSelected m _ p ddwdt _
  · rw [if_neg h]; exact finishSelect_isSelected m d p ddwdt r

lemma selectCore3_decisions (m : DependencyDescriptorExtension → Option (List Nat))
    (d : DependencyDescriptor) (p : ExtPacket)
    (ddwdt : DependencyDescriptorWithDecodeTargets)
    (hdt : DependencyDescriptorDecodeTarget) (r : VideoLayerSelectorResult) :
    (selectCore3 m d p ddwdt hdt r).1.decisions =
      (if ddwdt.integrity = true
       then addDecision d.decisions ddwdt.extFrameNum SelectorDecision.forwarded
       else d.decisions) := by
  unfold selectCore3
  by_cases h : d.currentLayer ≠ hdt.layer
  · rw [if_pos h, finishSelect_state]
    by_cases hI : ddwdt.integrity = true
    · rw [if_pos hI, if_pos hI]; rfl
    · rw [if_neg hI, if_neg hI]; rfl
  · rw [if_neg h, finishSelect_state]
    by_cases hI : ddwdt.integrity = true
    · rw [if_pos hI, if_pos hI]
    · rw [if_neg hI, if_neg hI]

lemma selectCore3_switch (m : DependencyDescriptorExtension → Option (List Nat))
    (d : DependencyDescriptor) (p : ExtPacket)
    (ddwdt : DependencyDescriptorWithDecodeTargets)
    (hdt : DependencyDescriptorDecodeTarget) (r : VideoLayerSelectorResult)
    (hsw : d.currentLayer ≠ hdt.layer) :
    (selectCore3 m d p ddwdt hdt r).1.previousLayer = d.currentLayer ∧
    (selectCore3 m d p ddwdt hdt r).1.currentLayer = hdt.layer ∧
    (selectCore3 m d p ddwdt hdt r).1.previousActiveDecodeTargetsBitmask =
      d.activeDecodeTargetsBitmask ∧
    (selectCore3 m d p ddwdt hdt r).1.activeDecodeTargetsBitmask =
      GetActiveDecodeTargetBitmask hdt.layer ddwdt.decodeTargets ∧
    (selectCore3 m d p ddwdt hdt r).2.isSwitching = true ∧
    (selectCore3 m d p ddwdt hdt r).2.isResuming = (!d.currentLayer.IsValid || r.isResuming) := by
  unfold selectCore3
  rw [if_pos hsw]
  refine ⟨?_, ?_, ?_, ?_, ?_, ?_⟩
  · rw [finishSelect_state]
    by_cases hI : ddwdt.integrity = true
    · rw [if_pos hI]; rfl
    · rw [if_neg hI]; rfl
  · rw [finishSelect_state]
    by_cases hI : ddwdt.integrity = true
    · rw [if_pos hI]; rfl
    · rw [if_neg hI]; rfl
  · rw [finishSelect_state]
    by_cases hI : ddwdt.integrity = true
    · rw [if_pos hI]; rfl
    · rw [if_neg hI]; rfl
  · rw [finishSelect_state]
    by_cases hI : ddwdt.integrity = true
    · rw [if_pos hI]; rfl
    · rw [if_neg hI]; rfl
  · rw [finishSelect_isSwitching]; rfl
  · rw [finishSelect_isResuming]; rfl

lemma selectCore3_noswitch (m : DependencyDescriptorExtension → Option (List Nat))
    (d : DependencyDescriptor) (p : ExtPacket)
    (ddwdt : DependencyDescriptorWithDecodeTargets)
    (hdt : DependencyDescriptorDecodeTarget) (r : VideoLayerSelectorResult)
    (hsw : ¬ d.currentLayer ≠ hdt.layer) :
    (selectCore3 m d p ddwdt hdt r).1.currentLayer = d.currentLayer ∧
    (selectCore3 m d p ddwdt hdt r).1.previousLayer = d.previousLayer ∧
    (selectCore3 m d p ddwdt hdt r).1.activeDecodeTargetsBitmask =
      d.activeDecodeTargetsBitmask ∧
    (selectCore3 m d p ddwdt hdt r).1.previousActiveDecodeTargetsBitmask =
      d.previousActiveDecodeTargetsBitmask ∧
    (selectCore3 m d p ddwdt hdt r).2.isSwitching = r.isSwitching := by
  unfold selectCore3
  rw [if_neg hsw]
  refine ⟨?_, ?_, ?_, ?_, ?_⟩
  · rw [finishSelect_state]
    by_cases hI : ddwdt.integrity = true
    · rw [if_pos hI]
    · rw [if_neg hI]
  · rw [finishSelect_state]
    by_cases hI : ddwdt.integrity = true
    · rw [if_pos hI]
    · rw [if_neg hI]
  · rw [finishSelect_state]
    by_cases hI : ddwdt.integrity = true
    · rw [if_pos hI]
    · rw [if_neg hI]
  · rw [finishSelect_state]
    by_cases hI : ddwdt.integrity = true
    · rw [if_pos hI]
    · rw [if_neg hI]
  · rw [finishSelect_isSwitching]

/-- The five selector fields that drop paths must not modify. -/
def LayerFieldsEq (d d' : DependencyDescriptor) : Prop :=
  d'.currentLayer = d.currentLayer ∧
  d'.previousLayer = d.previousLayer ∧
  d'.targetLayer = d.targetLayer ∧
  d'.activeDecodeTargetsBitmask = d.activeDecodeTargetsBitmask ∧
  d'.previousActiveDecodeTargetsBitmask = d.previousActiveDecodeTargetsBitmask

lemma layerFieldsEq_trans {a b c : DependencyDescriptor}
    (h1 : LayerFieldsEq a b) (h2 : LayerFieldsEq b c) : LayerFieldsEq a c :=
  ⟨h2.1.trans h1.1, h2.2.1.trans h1.2.1, h2.2.2.1.trans h1.2.2.1,
   h2.2.2.2.1.trans h1.2.2.2.1, h2.2.2.2.2.trans h1.2.2.2.2⟩

lemma updateDependencyStructure_layerFields (d : DependencyDescriptor)
    (s : FrameDependencyStructure) (dts : List DependencyDescriptorDecodeTarget) :
    LayerFieldsEq d (updateDependencyStructure d s dts) :=
  ⟨rfl, rfl, rfl, rfl, rfl⟩

lemma updateActiveDecodeTargets_layerFields (d : DependencyDescriptor) (bm : Nat) :
    LayerFieldsEq d (updateActiveDecodeTargets d bm) :=
  ⟨rfl, rfl, rfl, rfl, rfl⟩

lemma addDroppedState_layerFields (d : DependencyDescriptor) (efn : Nat) :
    LayerFieldsEq d (addDroppedState d efn) :=
  ⟨rfl, rfl, rfl, rfl, rfl⟩

lemma applyStructureUpdate_layerFields (d : DependencyDescriptor)
    (ddwdt : DependencyDescriptorWithDecodeTargets) :
    LayerFieldsEq d (applyStructureUpdate d ddwdt) := by
  unfold applyStructureUpdate
  by_cases h1 : ddwdt.structureUpdated = true
  · rw [if_pos h1]
    cases has : ddwdt.descriptor.attachedStructure with
    | none => exact ⟨rfl, rfl, rfl, rfl, rfl⟩
    | some s => exact updateDependencyStructure_layerFields d s ddwdt.decodeTargets
  · rw [if_neg h1]; exact ⟨rfl, rfl, rfl, rfl, rfl⟩

lemma applyActiveUpdate_layerFields (d : DependencyDescriptor)
    (ddwdt : DependencyDescriptorWithDecodeTargets) :
    LayerFieldsEq d (applyActiveUpdate d ddwdt) := by
  unfold applyActiveUpdate
  by_cases h1 : ddwdt.activeDecodeTargetsUpdated = true
  · rw [if_pos h1]
    cases hbm : ddwdt.descriptor.activeDecodeTargetsBitmask with
    | none => exact ⟨rfl, rfl, rfl, rfl, rfl⟩
    | some bm => exact updateActiveDecodeTargets_layerFields d bm
  · rw [if_neg h1]; exact ⟨rfl, rfl, rfl, rfl, rfl⟩

lemma applyUpdates_layerFields (d : DependencyDescriptor)
    (ddwdt : DependencyDescriptorWithDecodeTargets) :
    LayerFieldsEq d (applyUpdates d ddwdt) :=
  layerFieldsEq_trans
    (layerFieldsEq_trans (applyStructureUpdate_layerFields d ddwdt)
      (applyActiveUpdate_layerFields _ ddwdt))
    ⟨rfl, rfl, rfl, rfl, rfl⟩

/-- Case analysis of selectCore2: either the packet is dropped with the
early result and the layer fields untouched, or the run reaches the
switch and rewrite stage after a successful decodability check. -/
lemma selectCore2_spec (m : DependencyDescriptorExtension → Option (List Nat))
    (d : DependencyDescriptor) (p : ExtPacket)
    (ddwdt : DependencyDescriptorWithDecodeTargets) (r0 : VideoLayerSelectorResult) :
    ((selectCore2 m d p ddwdt r0).2 = r0 ∧
      LayerFieldsEq d (selectCore2 m d p ddwdt r0).1) ∨
    (∃ hdt, selectCore2 m d p ddwdt r0 =
        selectCore3 m (applyUpdates d ddwdt) p ddwdt hdt r0 ∧
      isDecodable (applyUpdates d ddwdt).decisions ddwdt.extFrameNum
        ddwdt.descriptor.frameDependencies = true) := by
  unfold selectCore2
  cases hft : findTarget (applyUpdates d ddwdt).chains (applyUpdates d ddwdt).targetLayer
      ddwdt.extFrameNum ddwdt.descriptor.frameDependencies
      (applyUpdates d ddwdt).decodeTargets with
  | error e =>
    exact Or.inl ⟨rfl,
      layerFieldsEq_trans (applyUpdates_layerFields d ddwdt) (addDroppedState_layerFields _ _)⟩
  | ok v =>
    cases v with
    | none =>
      exact Or.inl ⟨rfl,
        layerFieldsEq_trans (applyUpdates_layerFields d ddwdt) (addDroppedState_layerFields _ _)⟩
    | some pr =>
      obtain ⟨hdt, dti⟩ := pr
      dsimp only
      by_cases hnp : dti = DecodeTargetIndication.notPresent
      · rw [if_pos hnp]
        exact Or.inl ⟨rfl,
          layerFieldsEq_trans (applyUpdates_layerFields d ddwdt) (addDroppedState_layerFields _ _)⟩
      · rw [if_neg hnp]
        by_cases hdec : isDecodable (applyUpdates d ddwdt).decisions ddwdt.extFrameNum
            ddwdt.descriptor.frameDependencies = true
        · rw [if_pos hdec]
          exact Or.inr ⟨hdt, rfl, hdec⟩
        · rw [if_neg hdec]
          exact Or.inl ⟨rfl,
            layerFieldsEq_trans (applyUpdates_layerFields d ddwdt) (addDroppedState_layerFields _ _)⟩

/-- Case analysis of Select: either an early return with the selector
unchanged and the early result, or the run proceeds to selectCore2. -/
lemma select_spec (m : DependencyDescriptorExtension → Option (List Nat))
    (d : DependencyDescriptor) (p : ExtPacket) :
    (Select m d p = (d, selectR0 d)) ∨
    (∃ ddwdt, p.dependencyDescriptor = some ddwdt ∧
      Select m d p = selectCore2 m d p ddwdt (selectR0 d)) := by
  unfold Select
  cases hdd : p.dependencyDescriptor with
  | none => exact Or.inl rfl
  | some ddwdt =>
    dsimp only
    cases hgd : GetDecision d.decisions ddwdt.extFrameNum with
    | none => exact Or.inl rfl
    | some sd =>
      dsimp only
      by_cases hsd : sd = SelectorDecision.dropped
      · rw [if_pos hsd]; exact Or.inl rfl
      · rw [if_neg hsd]; exact Or.inr ⟨ddwdt, rfl, rfl⟩

/-- Lookup through the eviction filter: an entry survives exactly when
its key is inside the window. -/
lemma lookup_filter_cacheKeep (hm mar sz : Nat) (l : List (Nat × SelectorDecision)) (x : Nat) :
    (l.filter (fun e => decide (hm + mar ≤ e.1 + sz))).lookup x =
      (if hm + mar ≤ x + sz then l.lookup x else none) := by
  induction l with
  | nil => simp
  | cons hd tl ih =>
    obtain ⟨k, v⟩ := hd
    by_cases hxk : x = k
    · subst hxk
      by_cases hpk : hm + mar ≤ x + sz
      · simp [List.filter_cons, hpk, List.lookup]
      · simp [List.filter_cons, hpk, ih]
    · have hbx : (x == k) = false := beq_eq_false_iff_ne.mpr hxk
      by_cases hpk : hm + mar ≤ k + sz
      · simp only [List.filter_cons, decide_eq_true_eq, hpk, if_true, List.lookup, hbx, ih]
      · simp only [List.filter_cons, decide_eq_true_eq, hpk, if_false, ih, List.lookup, hbx]

/-- Writing a decision at one key never makes another key read back as
dropped: a dropped answer after addDecision was either already dropped
before, or is the freshly written key carrying a dropped value. -/
lemma getDecision_addDecision_dropped {c : SelectorDecisionCache} {efn x : Nat}
    {sd : SelectorDecision}
    (h : GetDecision (addDecision c efn sd) x = some SelectorDecision.dropped) :
    GetDecision c x = some SelectorDecision.dropped ∨
      (x = efn ∧ sd = SelectorDecision.dropped) := by
  unfold addDecision at h
  by_cases h1 : efn + c.size < c.highest + c.margin
  · rw [if_pos h1] at h
    exact Or.inl h
  · rw [if_neg h1] at h
    cases hl : c.entries.lookup efn with
    | some sd0 => rw [hl] at h; exact Or.inl h
    | none =>
      rw [hl] at h
      unfold GetDecision at h
      dsimp only at h
      by_cases h2 : x + c.size < max c.highest efn + c.margin
      · rw [if_pos h2] at h
        cases h
      · rw [if_neg h2] at h
        rw [lookup_filter_cacheKeep] at h
        rw [if_pos (by omega)] at h
        by_cases hxe : x = efn
        · subst hxe
          simp only [List.lookup, beq_self_eq_true] at h
          exact Or.inr ⟨rfl, by injection h⟩
        · have hbx : (x == efn) = false := beq_eq_false_iff_ne.mpr hxe
          simp only [List.lookup, hbx] at h
          cases hlx : c.entries.lookup x with
          | some s =>
            rw [hlx] at h
            refine Or.inl ?_
            unfold GetDecision
            have hmax := Nat.le_max_left c.highest efn
            rw [if_neg (by omega), hlx]
            exact h
          | none =>
            rw [hlx] at h
            simp at h

/-- Adding a forwarded decision preserves the absence of a dropped
decision at any key. -/
lemma getDecision_addForwarded_not_dropped {c : SelectorDecisionCache} {efn x : Nat}
    (h : GetDecision c x ≠ some SelectorDecision.dropped) :
    GetDecision (addDecision c efn SelectorDecision.forwarded) x ≠
      some SelectorDecision.dropped := by
  intro hc
  rcases getDecision_addDecision_dropped hc with h1 | ⟨h2, h3⟩
  · exact h h1
  · cases h3

/-! ## Concrete fixtures for witnesses and counterexamples -/

/-- A marshaller that always fails. -/
def marshalNone : DependencyDescriptorExtension → Option (List Nat) := fun _ => none

/-- A marshaller that always succeeds with an empty byte list. -/
def marshalEmpty : DependencyDescriptorExtension → Option (List Nat) := fun _ => some []

/-- A freshly created selector (NewDependencyDescriptor with cache
parameters 256 and 80) whose target layer has been set to (2, 2). -/
def initialSelector : DependencyDescriptor :=
  { currentLayer := InvalidLayer
    previousLayer := InvalidLayer
    targetLayer := { spatial := 2, temporal := 2 }
    decisions := NewSelectorDecisionCache 256 80
    previousActiveDecodeTargetsBitmask := none
    activeDecodeTargetsBitmask := none
    ddStructure := none
    chains := []
    decodeTargets := [] }

/-- A one-target structure with no chains, bootstrapping the selector. -/
def bootstrapStructure : FrameDependencyStructure :=
  { numChains := 0, numDecodeTargets := 1, decodeTargetProtectedByChain := [] }

/-- Frame dependencies of the bootstrap keyframe: one required decode
target and a frame diff of one. -/
def bootstrapFd : FrameDependencyTemplate :=
  { spatialId := 0, temporalId := 0, frameDiffs := [1]
    decodeTargetIndications := [DecodeTargetIndication.required], chainDiffs := [] }

/-- The parsed bootstrap descriptor. -/
def bootstrapDescriptor : Dede.DependencyDescriptor :=
  { frameNumber := 100, frameDependencies := bootstrapFd
    attachedStructure := some bootstrapStructure
    activeDecodeTargetsBitmask := none, lastPacketInFrame := true }

/-- The decode target of the bootstrap packet. -/
def bootstrapTarget : DependencyDescriptorDecodeTarget :=
  { target := 0, layer := { spatial := 0, temporal := 0 } }

/-- The bootstrap packet payload: structure update at extended frame
number 100 with integrity. -/
def bootstrapDdwdt : DependencyDescriptorWithDecodeTargets :=
  { descriptor := bootstrapDescriptor, extFrameNum := 100, structureUpdated := true
    activeDecodeTargetsUpdated := false, decodeTargets := [bootstrapTarget], integrity := true }

/-- The bootstrap packet. -/
def bootstrapPacket : ExtPacket :=
  { dependencyDescriptor := some bootstrapDdwdt, marker := false }

/-- A structure with no chains and no decode targets. -/
def emptyTargetsStructure : FrameDependencyStructure :=
  { numChains := 0, numDecodeTargets := 0, decodeTargetProtectedByChain := [] }

/-- A packet announcing the empty structure at extended frame number 50;
with no decode target the packet is dropped after the structure is
installed. -/
def emptyDdwdt : DependencyDescriptorWithDecodeTargets :=
  { descriptor :=
      { frameNumber := 50
        frameDependencies :=
          { spatialId := 0, temporalId := 0, frameDiffs := []
            decodeTargetIndications := [], chainDiffs := [] }
        attachedStructure := some emptyTargetsStructure
        activeDecodeTargetsBitmask := none, lastPacketInFrame := true }
    extFrameNum := 50, structureUpdated := true, activeDecodeTargetsUpdated := false
    decodeTargets := [], integrity := true }

/-- The packet carrying emptyDdwdt. -/
def emptyPacket : ExtPacket :=
  { dependencyDescriptor := some emptyDdwdt, marker := false }

/-- A selector whose previous layer and previous bitmask differ from the
current ones (an earlier switch has happened). -/
def rollbackState : DependencyDescriptor :=
  { initialSelector with
      currentLayer := { spatial := 1, temporal := 1 }
      previousLayer := { spatial := 0, temporal := 0 }
      activeDecodeTargetsBitmask := some 3
      previousActiveDecodeTargetsBitmask := some 1 }

/-- A packet without a dependency descriptor. -/
def noDDPacket : ExtPacket := { dependencyDescriptor := none, marker := false }

/-- A cache that has recorded extended frame number 100 as dropped. -/
def droppedCache : SelectorDecisionCache :=
  addDecision (NewSelectorDecisionCache 256 80) 100 SelectorDecision.dropped

/-- The selector owning droppedCache. -/
def droppedState : DependencyDescriptor := { initialSelector with decisions := droppedCache }

/-- A minimal packet at extended frame number 100. -/
def droppedDdwdt : DependencyDescriptorWithDecodeTargets :=
  { descriptor :=
      { frameNumber := 100
        frameDependencies :=
          { spatialId := 0, temporalId := 0, frameDiffs := []
            decodeTargetIndications := [], chainDiffs := [] }
        attachedStructure := none, activeDecodeTargetsBitmask := none
        lastPacketInFrame := false }
    extFrameNum := 100, structureUpdated := false, activeDecodeTargetsUpdated := false
    decodeTargets := [], integrity := false }

/-- The packet carrying droppedDdwdt. -/
def droppedPacket : ExtPacket :=
  { dependencyDescriptor := some droppedDdwdt, marker := false }

/-- A cache whose window has advanced to 100000, so extended frame
number 5 is too old. -/
def staleCache : SelectorDecisionCache :=
  addDecision (NewSelectorDecisionCache 256 80) 100000 SelectorDecision.dropped

/-- The selector owning staleCache. -/
def staleState : DependencyDescriptor := { initialSelector with decisions := staleCache }

/-- A minimal packet at the stale extended frame number 5. -/
def staleDdwdt : DependencyDescriptorWithDecodeTargets :=
  { droppedDdwdt with
      descriptor := { droppedDdwdt.descriptor with frameNumber := 5 }
      extFrameNum := 5 }

/-- The packet carrying staleDdwdt. -/
def stalePacket : ExtPacket :=
  { dependencyDescriptor := some staleDdwdt, marker := false }

/-! ## Claim C6 -/

/-- Claim C6: a packet whose extended frame number is already recorded
as dropped in the decision cache is not selected and the selector state
is unchanged (in particular the dropped decision is preserved); a
packet whose extended frame number is too old for the cache window is
not selected and no decision is written. -/
theorem select_dropped_or_too_old (m : DependencyDescriptorExtension → Option (List Nat))
    (d : DependencyDescriptor) (p : ExtPacket)
    (ddwdt : DependencyDescriptorWithDecodeTargets)
    (hp : p.dependencyDescriptor = some ddwdt) :
    (GetDecision d.decisions ddwdt.extFrameNum = some SelectorDecision.dropped →
      (Select m d p).2.isSelected = false ∧ (Select m d p).1 = d) ∧
    (GetDecision d.decisions ddwdt.extFrameNum = none →
      (Select m d p).2.isSelected = false ∧ (Select m d p).1 = d) := by
  unfold Select
  rw [hp]
  dsimp only
  constructor
  · intro hgd
    rw [hgd]
    dsimp only
    rw [if_pos rfl]
    exact ⟨rfl, rfl⟩
  · intro hgd
    rw [hgd]
    exact ⟨rfl, rfl⟩

/-- Claim C6 witness: the dropped case at extended frame number 100 and
the too old case at extended frame number 5 on concrete selectors. -/
theorem select_dropped_or_too_old_witness :
    ((Select marshalNone droppedState droppedPacket).2.isSelected = false ∧
     (Select marshalNone droppedState droppedPacket).1 = droppedState) ∧
    ((Select marshalNone staleState stalePacket).2.isSelected = false ∧
     (Select marshalNone staleState stalePacket).1 = staleState) :=
  ⟨(select_dropped_or_too_old marshalNone droppedState droppedPacket droppedDdwdt rfl).1
      (by decide),
   (select_dropped_or_too_old marshalNone staleState stalePacket staleDdwdt rfl).2
      (by decide)⟩

/-! ## Claim C10 -/

/-- Claim C10 counterexample: a packet with a structure update that is
then dropped for lack of decode targets modifies the stored dependency
structure, so the chains, decode-target list and decision cache are not
the only state a non-selecting call can modify. -/
theorem select_unselected_modifies_structure :
    (Select marshalNone initialSelector emptyPacket).2.isSelected = false ∧
    (Select marshalNone initialSelector emptyPacket).1.ddStructure ≠
      initialSelector.ddStructure := by
  exact ⟨by decide, by decide⟩

/-- Claim C10 (amended): every Select call that returns selected = false
leaves currentLayer, previousLayer, targetLayer and both bitmask fields
unchanged; besides those, such a call modifies only the chains, the
decode-target list, the decision cache and the stored dependency
structure. -/
theorem select_unselected_preserves_layer_state
    (m : DependencyDescriptorExtension → Option (List Nat))
    (d : DependencyDescriptor) (p : ExtPacket)
    (h : (Select m d p).2.isSelected = false) :
    (Select m d p).1.currentLayer = d.currentLayer ∧
    (Select m d p).1.previousLayer = d.previousLayer ∧
    (Select m d p).1.targetLayer = d.targetLayer ∧
    (Select m d p).1.activeDecodeTargetsBitmask = d.activeDecodeTargetsBitmask ∧
    (Select m d p).1.previousActiveDecodeTargetsBitmask =
      d.previousActiveDecodeTargetsBitmask := by
  rcases select_spec m d p with heq | ⟨ddwdt, hp, heq⟩
  · rw [heq]
    exact ⟨rfl, rfl, rfl, rfl, rfl⟩
  · rw [heq] at h ⊢
    rcases selectCore2_spec m d p ddwdt (selectR0 d) with ⟨hr, hf⟩ | ⟨hdt, heq3, hdec⟩
    · exact hf
    · rw [heq3] at h
      rw [selectCore3_isSelected] at h
      cases h

/-- Claim C10 witness: the amended theorem applied to the packet without
a dependency descriptor on a concrete selector. -/
theorem select_unselected_preserves_layer_state_witness :
    (Select marshalNone rollbackState noDDPacket).1.currentLayer =
      rollbackState.currentLayer ∧
    (Select marshalNone rollbackState noDDPacket).1.previousLayer =
      rollbackState.previousLayer ∧
    (Select marshalNone rollbackState noDDPacket).1.targetLayer =
      rollbackState.targetLayer ∧
    (Select marshalNone rollbackState noDDPacket).1.activeDecodeTargetsBitmask =
      rollbackState.activeDecodeTargetsBitmask ∧
    (Select marshalNone rollbackState noDDPacket).1.previousActiveDecodeTargetsBitmask =
      rollbackState.previousActiveDecodeTargetsBitmask :=
  select_unselected_preserves_layer_state marshalNone rollbackState noDDPacket (by decide)

/-! ## Claim C1 -/

/-- Claim C1: whenever Select returns selected = true, no nonzero frame
diff of the packet refers to a frame whose decision (in the cache as
left by the call) is dropped; unknown and too old decisions for
referenced frames do not prevent selection. -/
theorem select_no_forward_without_decodability
    (m : DependencyDescriptorExtension → Option (List Nat))
    (d : DependencyDescriptor) (p : ExtPacket)
    (ddwdt : DependencyDescriptorWithDecodeTargets) (diff : Nat)
    (hp : p.dependencyDescriptor = some ddwdt)
    (hsel : (Select m d p).2.isSelected = true)
    (hmem : diff ∈ ddwdt.descriptor.frameDependencies.frameDiffs)
    (hnz : diff ≠ 0) :
    GetDecision (Select m d p).1.decisions (u64sub ddwdt.extFrameNum diff) ≠
      some SelectorDecision.dropped := by
  rcases select_spec m d p with heq | ⟨ddwdt2, hp2, heq⟩
  · rw [heq] at hsel
    exact Bool.noConfusion hsel
  · have hdd : ddwdt2 = ddwdt := by
      rw [hp] at hp2
      injection hp2 with h
      exact h.symm
    subst hdd
    rw [heq] at hsel ⊢
    rcases selectCore2_spec m d p ddwdt2 (selectR0 d) with ⟨hr, hf⟩ | ⟨hdt, heq3, hdec⟩
    · rw [hr] at hsel
      exact Bool.noConfusion hsel
    · rw [heq3]
      rw [selectCore3_decisions]
      have hx : GetDecision (applyUpdates d ddwdt2).decisions
          (u64sub ddwdt2.extFrameNum diff) ≠ some SelectorDecision.dropped := by
        unfold isDecodable at hdec
        rw [List.all_eq_true] at hdec
        have hd := hdec diff hmem
        simp only [Bool.or_eq_true, beq_iff_eq, Bool.not_eq_true',
          beq_eq_false_iff_ne] at hd
        rcases hd with h0 | hnd
        · exact absurd h0 hnz
        · exact hnd
      by_cases hI : ddwdt2.integrity = true
      · rw [if_pos hI]
        exact getDecision_addForwarded_not_dropped hx
      · rw [if_neg hI]
        exact hx

/-- Claim C1 witness: the bootstrap packet is selected, its frame diff 1
is nonzero, and the decision for extended frame number 99 in the final
cache is not dropped. -/
theorem select_no_forward_without_decodability_witness :
    (Select marshalNone initialSelector bootstrapPacket).2.isSelected = true ∧
    GetDecision (Select marshalNone initialSelector bootstrapPacket).1.decisions
      (u64sub bootstrapDdwdt.extFrameNum 1) ≠ some SelectorDecision.dropped :=
  ⟨by decide,
   select_no_forward_without_decodability marshalNone initialSelector bootstrapPacket
     bootstrapDdwdt 1 rfl (by decide) (by decide) (by decide)⟩

/-! ## Claim C2 -/

/-- Claim C2 counterexample: on a selector whose previous layer and
previous bitmask differ from the current ones, Select on a packet
without a dependency descriptor followed by Rollback does not restore
the pair (currentLayer, activeDecodeTargetsBitmask) to its value before
the Select call. -/
theorem select_rollback_counterexample :
    ¬ ((Rollback (Select marshalNone rollbackState noDDPacket).1).currentLayer =
         rollbackState.currentLayer ∧
       (Rollback (Select marshalNone rollbackState noDDPacket).1).activeDecodeTargetsBitmask =
         rollbackState.activeDecodeTargetsBitmask) := by
  decide

/-- Claim C2 (amended): when Select performed a layer switch (the
returned result reports switching), the following Rollback restores
currentLayer and activeDecodeTargetsBitmask to their values before the
Select call; Rollback never modifies the decision cache. -/
theorem select_rollback_after_switch
    (m : DependencyDescriptorExtension → Option (List Nat))
    (d : DependencyDescriptor) (p : ExtPacket) :
    ((Select m d p).2.isSwitching = true →
      (Rollback (Select m d p).1).currentLayer = d.currentLayer ∧
      (Rollback (Select m d p).1).activeDecodeTargetsBitmask =
        d.activeDecodeTargetsBitmask) ∧
    (Rollback (Select m d p).1).decisions = (Select m d p).1.decisions := by
  constructor
  · intro hsw
    rcases select_spec m d p with heq | ⟨ddwdt, hp, heq⟩
    · rw [heq] at hsw
      exact Bool.noConfusion hsw
    · rw [heq] at hsw ⊢
      rcases selectCore2_spec m d p ddwdt (selectR0 d) with ⟨hr, hf⟩ | ⟨hdt, heq3, hdec⟩
      · rw [hr] at hsw
        exact Bool.noConfusion hsw
      · rw [heq3] at hsw ⊢
        by_cases hne : (applyUpdates d ddwdt).currentLayer ≠ hdt.layer
        · obtain ⟨hprev, hcur, hprevbm, hbm, hsw2, hres⟩ :=
            selectCore3_switch m (applyUpdates d ddwdt) p ddwdt hdt (selectR0 d) hne
          have hfields := applyUpdates_layerFields d ddwdt
          constructor
          · show (selectCore3 m (applyUpdates d ddwdt) p ddwdt hdt (selectR0 d)).1.previousLayer =
              d.currentLayer
            rw [hprev]
            exact hfields.1
          · show (selectCore3 m (applyUpdates d ddwdt) p ddwdt hdt
                (selectR0 d)).1.previousActiveDecodeTargetsBitmask =
              d.activeDecodeTargetsBitmask
            rw [hprevbm]
            exact hfields.2.2.2.1
        · obtain ⟨_, _, _, _, hsw2⟩ :=
            selectCore3_noswitch m (applyUpdates d ddwdt) p ddwdt hdt (selectR0 d) hne
          rw [hsw2] at hsw
          exact Bool.noConfusion hsw
  · rfl

/-- Claim C2 witness: the bootstrap packet performs a switch, and the
subsequent Rollback restores the layer and bitmask of the fresh
selector. -/
theorem select_rollback_after_switch_witness :
    (Select marshalNone initialSelector bootstrapPacket).2.isSwitching = true ∧
    (Rollback (Select marshalNone initialSelector bootstrapPacket).1).currentLayer =
      initialSelector.currentLayer ∧
    (Rollback (Select marshalNone initialSelector bootstrapPacket).1).activeDecodeTargetsBitmask =
      initialSelector.activeDecodeTargetsBitmask :=
  ⟨by decide,
   ((select_rollback_after_switch marshalNone initialSelector bootstrapPacket).1 (by decide)).1,
   ((select_rollback_after_switch marshalNone initialSelector bootstrapPacket).1 (by decide)).2⟩

/-! ## Claim C7 -/

/-- Claim C7: on the selected path, when the chosen decode target layer
differs from the current layer, the switch and rewrite stage (lines 213
to 250 of the source) reports switching, reports resuming exactly when
the current layer was invalid, saves the previous layer and previous
bitmask before overwriting them, installs the chosen layer, and
recomputes the active bitmask as the OR over the decode targets whose
layer is at most the new current layer in both dimensions
(GetActiveDecodeTargetBitmask). -/
theorem select_switching_transition
    (m : DependencyDescriptorExtension → Option (List Nat))
    (d : DependencyDescriptor) (p : ExtPacket)
    (ddwdt : DependencyDescriptorWithDecodeTargets)
    (hdt : DependencyDescriptorDecodeTarget) (r : VideoLayerSelectorResult)
    (hsw : d.currentLayer ≠ hdt.layer) (hres : r.isResuming = false) :
    (selectCore3 m d p ddwdt hdt r).2.isSwitching = true ∧
    (selectCore3 m d p ddwdt hdt r).2.isResuming = !d.currentLayer.IsValid ∧
    (selectCore3 m d p ddwdt hdt r).1.previousLayer = d.currentLayer ∧
    (selectCore3 m d p ddwdt hdt r).1.previousActiveDecodeTargetsBitmask =
      d.activeDecodeTargetsBitmask ∧
    (selectCore3 m d p ddwdt hdt r).1.currentLayer = hdt.layer ∧
    (selectCore3 m d p ddwdt hdt r).1.activeDecodeTargetsBitmask =
      GetActiveDecodeTargetBitmask hdt.layer ddwdt.decodeTargets := by
  obtain ⟨hprev, hcur, hprevbm, hbm, hsw2, hres2⟩ := selectCore3_switch m d p ddwdt hdt r hsw
  refine ⟨hsw2, ?_, hprev, hprevbm, hcur, hbm⟩
  rw [hres2, hres, Bool.or_false]

/-- Claim C7 witness: the switch stage on the fresh selector with the
bootstrap packet and its decode target. -/
theorem select_switching_transition_witness :
    (selectCore3 marshalNone initialSelector bootstrapPacket bootstrapDdwdt bootstrapTarget
        (selectR0 initialSelector)).2.isSwitching = true ∧
    (selectCore3 marshalNone initialSelector bootstrapPacket bootstrapDdwdt bootstrapTarget
        (selectR0 initialSelector)).2.isResuming = !initialSelector.currentLayer.IsValid ∧
    (selectCore3 marshalNone initialSelector bootstrapPacket bootstrapDdwdt bootstrapTarget
        (selectR0 initialSelector)).1.previousLayer = initialSelector.currentLayer ∧
    (selectCore3 marshalNone initialSelector bootstrapPacket bootstrapDdwdt bootstrapTarget
        (selectR0 initialSelector)).1.previousActiveDecodeTargetsBitmask =
      initialSelector.activeDecodeTargetsBitmask ∧
    (selectCore3 marshalNone initialSelector bootstrapPacket bootstrapDdwdt bootstrapTarget
        (selectR0 initialSelector)).1.currentLayer = bootstrapTarget.layer ∧
    (selectCore3 marshalNone initialSelector bootstrapPacket bootstrapDdwdt bootstrapTarget
        (selectR0 initialSelector)).1.activeDecodeTargetsBitmask =
      GetActiveDecodeTargetBitmask bootstrapTarget.layer bootstrapDdwdt.decodeTargets :=
  select_switching_transition marshalNone initialSelector bootstrapPacket bootstrapDdwdt
    bootstrapTarget (selectR0 initialSelector) (by decide) (by decide)

/-! ## Claim C8 -/

/-- Claim C8: on the rewrite step, when marshalling the rewritten
extension fails, the packet is still selected with no rewritten
extension bytes attached, and the selector state together with the RTP
marker, switching and resuming fields agree with a run whose marshaller
succeeds. -/
theorem select_marshal_failure
    (m m2 : DependencyDescriptorExtension → Option (List Nat))
    (d : DependencyDescriptor) (p : ExtPacket)
    (ddwdt : DependencyDescriptorWithDecodeTargets) (r : VideoLayerSelectorResult)
    (hext : r.dependencyDescriptorExtension = none)
    (hfail : m (buildDDExtension d ddwdt.descriptor) = none) :
    (finishSelect m d p ddwdt r).1 = (finishSelect m2 d p ddwdt r).1 ∧
    (finishSelect m d p ddwdt r).2.isSelected = true ∧
    (finishSelect m d p ddwdt r).2.dependencyDescriptorExtension = none ∧
    (finishSelect m d p ddwdt r).2.rtpMarker = (finishSelect m2 d p ddwdt r).2.rtpMarker ∧
    (finishSelect m d p ddwdt r).2.isSwitching = (finishSelect m2 d p ddwdt r).2.isSwitching ∧
    (finishSelect m d p ddwdt r).2.isResuming = (finishSelect m2 d p ddwdt r).2.isResuming := by
  refine ⟨rfl, rfl, ?_, rfl,
    (finishSelect_isSwitching m d p ddwdt r).trans
      (finishSelect_isSwitching m2 d p ddwdt r).symm,
    (finishSelect_isResuming m d p ddwdt r).trans
      (finishSelect_isResuming m2 d p ddwdt r).symm⟩
  show (attachExtension (m (buildDDExtension d ddwdt.descriptor)) r).dependencyDescriptorExtension =
    none
  rw [hfail]
  exact hext

/-- Claim C8 witness: the failing marshaller against the succeeding one
on the fresh selector and the bootstrap packet. -/
theorem select_marshal_failure_witness :
    (finishSelect marshalNone initialSelector bootstrapPacket bootstrapDdwdt
        (selectR0 initialSelector)).1 =
      (finishSelect marshalEmpty initialSelector bootstrapPacket bootstrapDdwdt
        (selectR0 initialSelector)).1 ∧
    (finishSelect marshalNone initialSelector bootstrapPacket bootstrapDdwdt
        (selectR0 initialSelector)).2.isSelected = true ∧
    (finishSelect marshalNone initialSelector bootstrapPacket bootstrapDdwdt
        (selectR0 initialSelector)).2.dependencyDescriptorExtension = none ∧
    (finishSelect marshalNone initialSelector bootstrapPacket bootstrapDdwdt
        (selectR0 initialSelector)).2.rtpMarker =
      (finishSelect marshalEmpty initialSelector bootstrapPacket bootstrapDdwdt
        (selectR0 initialSelector)).2.rtpMarker ∧
    (finishSelect marshalNone initialSelector bootstrapPacket bootstrapDdwdt
        (selectR0 initialSelector)).2.isSwitching =
      (finishSelect marshalEmpty initialSelector bootstrapPacket bootstrapDdwdt
        (selectR0 initialSelector)).2.isSwitching ∧
    (finishSelect marshalNone initialSelector bootstrapPacket bootstrapDdwdt
        (selectR0 initialSelector)).2.isResuming =
      (finishSelect marshalEmpty initialSelector bootstrapPacket bootstrapDdwdt
        (selectR0 initialSelector)).2.isResuming :=
  select_marshal_failure marshalNone marshalEmpty initialSelector bootstrapPacket
    bootstrapDdwdt (selectR0 initialSelector) (by decide) rfl

/-! ## Claim C3 -/

/-- A structure whose single decode target names protecting chain 5
while only one chain exists. -/
def offendingStructure : FrameDependencyStructure :=
  { numChains := 1, numDecodeTargets := 1, decodeTargetProtectedByChain := [5] }

/-- Claim C3 counterexample: rebuilding from offendingStructure keeps
the offending decode target in the rebuilt list (with no protecting
chain) instead of skipping it. -/
theorem updateDependencyStructure_keeps_offending_target :
    (updateDependencyStructure initialSelector offendingStructure
        [bootstrapTarget]).decodeTargets =
      [{ target := 0, layer := { spatial := 0, temporal := 0 }
         chainIdx := none, active := true }] := by
  decide

/-- Claim C3 (amended): when the protecting chain index of a decode
target is at least the number of chains, the selector logs an error and
assigns no protecting chain to that target; the target still appears in
the rebuilt decode-target list, and the structure together with every
decode target is accepted. -/
theorem updateDependencyStructure_out_of_range_chain
    (d : DependencyDescriptor) (s : FrameDependencyStructure)
    (dts : List DependencyDescriptorDecodeTarget) (dt : DependencyDescriptorDecodeTarget)
    (hmem : dt ∈ dts) (hpos : 0 < s.numChains)
    (hoob : s.numChains ≤ s.decodeTargetProtectedByChain.getD dt.target.toNat 0) :
    NewDecodeTarget dt none ∈ (updateDependencyStructure d s dts).decodeTargets ∧
    (updateDependencyStructure d s dts).ddStructure = some s ∧
    (updateDependencyStructure d s dts).decodeTargets.length = dts.length := by
  refine ⟨?_, rfl, by simp [updateDependencyStructure]⟩
  unfold updateDependencyStructure
  dsimp only
  refine List.mem_map.mpr ⟨dt, hmem, ?_⟩
  have hlen : ((List.range s.numChains).map (fun chainIdx => NewFrameChain chainIdx)).length ≤
      s.decodeTargetProtectedByChain.getD dt.target.toNat 0 := by
    rw [List.length_map, List.length_range]
    exact hoob
  rw [if_pos hpos, if_pos hlen]

/-- Claim C3 witness: the amended behaviour at the concrete offending
structure. -/
theorem updateDependencyStructure_out_of_range_chain_witness :
    NewDecodeTarget bootstrapTarget none ∈
      (updateDependencyStructure initialSelector offendingStructure
        [bootstrapTarget]).decodeTargets ∧
    (updateDependencyStructure initialSelector offendingStructure
        [bootstrapTarget]).ddStructure = some offendingStructure ∧
    (updateDependencyStructure initialSelector offendingStructure
        [bootstrapTarget]).decodeTargets.length = [bootstrapTarget].length :=
  updateDependencyStructure_out_of_range_chain initialSelector offendingStructure
    [bootstrapTarget] bootstrapTarget (by decide) (by decide) (by decide)
